import Mathlib

namespace AmbulanceSim

/-- A 3D point with rational coordinates, modelling a THREE.Vector3
(floating-point coordinates in the source). -/
structure Vec3 where
  x : ℚ
  y : ℚ
  z : ℚ
  deriving DecidableEq, Repr

/-- Squared Euclidean distance between two points.  The source compares
`a.distanceTo(b) < r` for positive radii `r`; we model this as
`distSq a b < r^2`, which is equivalent for `r ≥ 0`. -/
def distSq (a b : Vec3) : ℚ :=
  (a.x - b.x) ^ 2 + (a.y - b.y) ^ 2 + (a.z - b.z) ^ 2

/-- `Math.sign` on rationals (returns an integer -1, 0 or 1). -/
def sgn (q : ℚ) : ℤ :=
  if q > 0 then 1 else if q < 0 then -1 else 0

/-! ### Configuration constants, from `js/Config.js` -/

def roadWidth : ℚ := 8
def roadLength : ℚ := 70
def junctionSize : ℚ := 12
def numJunctions : ℕ := 3
def roadSurfaceY : ℚ := 1/20
def ambulancePreemptionRadius : ℚ := 150
def sirenDetectionRadius : ℚ := 60
def reflectorDetectionChainRadius : ℚ := 4
def reflectorSpacing : ℚ := 6
def laneWidth : ℚ := 7/2
def carEvadeDistance : ℚ := 25
def carEvadeShiftZ : ℚ := 5/2
def carStopDistanceToJunction : ℚ := 8
def carDetectionDistanceToJunction : ℚ := 25
def ambulanceLaneOffsetZ : ℚ := -7/4
def trafficLightGreenDuration : ℕ := 8000
def trafficLightYellowDuration : ℕ := 2000
def ambulanceFadeOutDuration : ℚ := 2

/-! ### Traffic lights, from `js/TrafficLight.js` -/

/-- The color state of one traffic light (`LIGHT_STATE` in the source). -/
inductive LightState where
  | RED
  | YELLOW
  | GREEN
  | OFF
  deriving DecidableEq, Repr

open LightState

/-- Visual state of one lamp sphere of a traffic light: material color,
emissive color (both hex RGB values) and emissive intensity. -/
structure Lamp where
  color : ℕ
  emissive : ℕ
  emissiveIntensity : ℚ
  deriving DecidableEq, Repr

def redOffColor : ℕ := 0x440000
def redOnColor : ℕ := 0xff0000
def yellowOffColor : ℕ := 0x444400
def yellowOnColor : ℕ := 0xffff00
def greenOffColor : ℕ := 0x004400
def greenOnColor : ℕ := 0x00ff00

/-- A lamp with the given color in the "off" appearance (intensity 0.2). -/
def offLamp (c : ℕ) : Lamp := ⟨c, c, 1/5⟩

/-- A lamp with the given color in the "on" appearance (intensity 1.0). -/
def onLamp (c : ℕ) : Lamp := ⟨c, c, 1⟩

/-- One traffic light: the logical color state, the priority-override flag,
and the three lamp spheres (`this.lights.red/yellow/green`). -/
structure TrafficLight where
  currentState : LightState
  isOverridden : Bool
  redLamp : Lamp
  yellowLamp : Lamp
  greenLamp : Lamp
  deriving DecidableEq, Repr

/-- `TrafficLight.setLightState(state, isPriorityOverride)`.  When the light
is overridden and the call is not a priority override, the call is ignored
(the source only logs).  Otherwise `currentState` is set, all lamps are reset
to their "off" appearance, and the lamp matching `state` is set to "on"
(the `forceSilent` parameter of the source only suppresses logging and is
not modelled). -/
def setLightState (l : TrafficLight) (state : LightState) (isPriorityOverride : Bool) :
    TrafficLight :=
  if !isPriorityOverride && l.isOverridden then
    l
  else
    let base : TrafficLight :=
      { l with currentState := state,
               redLamp := offLamp redOffColor,
               yellowLamp := offLamp yellowOffColor,
               greenLamp := offLamp greenOffColor }
    match state with
    | RED => { base with redLamp := onLamp redOnColor }
    | YELLOW => { base with yellowLamp := onLamp yellowOnColor }
    | GREEN => { base with greenLamp := onLamp greenOnColor }
    | OFF => base

/-- `TrafficLight.setPriority(makeGreen)`: marks the light overridden and
sets GREEN (priority path) if `makeGreen`, else RED. -/
def setPriority (l : TrafficLight) (makeGreen : Bool) : TrafficLight :=
  let l := { l with isOverridden := true }
  if makeGreen then setLightState l GREEN true else setLightState l RED true

/-- `TrafficLight.releasePriority()`: clears the override flag; the next
phase application decides the colors. -/
def releasePriority (l : TrafficLight) : TrafficLight :=
  { l with isOverridden := false }

/-! ### Junction phases, from `js/main.js` (`JUNCTION_PHASES`,
`JUNCTION_CYCLE_DEFINITION`) -/

/-- Phase names of the junction light cycle (`JUNCTION_PHASES`). -/
inductive Phase where
  | EW_GREEN
  | EW_YELLOW
  | NS_GREEN
  | NS_YELLOW
  | ALL_RED
  deriving DecidableEq, Repr

open Phase

/-- One entry of the cycle definition: phase name and duration in
milliseconds. -/
structure CycleEntry where
  phase : Phase
  duration : ℕ
  deriving DecidableEq, Repr

/-- `JUNCTION_CYCLE_DEFINITION`: the fixed six-entry phase cycle.  With the
shipped `Config`, green is 8000 ms and yellow 2000 ms. -/
def JUNCTION_CYCLE_DEFINITION : List CycleEntry :=
  [⟨EW_GREEN, trafficLightGreenDuration⟩,
   ⟨EW_YELLOW, trafficLightYellowDuration⟩,
   ⟨ALL_RED, 1000⟩,
   ⟨NS_GREEN, trafficLightGreenDuration⟩,
   ⟨NS_YELLOW, trafficLightYellowDuration⟩,
   ⟨ALL_RED, 1000⟩]

/-! ### Smart reflectors, from `js/SmartReflector.js`
(shipped inside `ProceduralPedestrian.js` in this snapshot) -/

/-- One roadside smart reflector: fixed position and the signaling flag
(`triggerSignal` sets it; the timed auto-revert is a wall-clock
`setTimeout` outside the per-tick model). -/
structure Reflector where
  position : Vec3
  isSignaling : Bool
  deriving DecidableEq, Repr

/-- `SmartReflector.canDetectAmbulance(pos)`: distance below the siren
detection radius (60). -/
def canDetectAmbulance (r : Reflector) (ambulancePos : Vec3) : Bool :=
  decide (distSq r.position ambulancePos < sirenDetectionRadius ^ 2)

/-- `SmartReflector.isAmbulanceNear(otherPos)`: distance below the
chain-propagation radius (4). -/
def isAmbulanceNear (r : Reflector) (otherReflectorPosition : Vec3) : Bool :=
  decide (distSq r.position otherReflectorPosition < reflectorDetectionChainRadius ^ 2)

/-- `SmartReflector.triggerSignal()`: start the signal pulse (the early
return when already signaling leaves the flag true either way). -/
def triggerSignal (r : Reflector) : Reflector :=
  { r with isSignaling := true }

/-! ### Junction data, from `Simulation.setupEnvironment` in `js/main.js` -/

/-- Per-junction state created in `setupEnvironment`.  The four lights are,
in the source's array order: index 0 south-bound, 1 north-bound,
2 west-bound, 3 east-bound.  `reflectorChain` stores indices into
`reflectors` in activation order (the source stores object references;
each reflector object is distinct, so indices are a faithful encoding). -/
structure Junction where
  id : ℕ
  center : Vec3
  tl0 : TrafficLight
  tl1 : TrafficLight
  tl2 : TrafficLight
  tl3 : TrafficLight
  reflectors : List Reflector
  reflectorChain : List ℕ
  isAmbulanceApproaching : Bool
  hasAmbulancePassed : Bool
  currentPhaseIndex : ℕ
  currentPhaseTimer : ℚ
  isUnderNormalCycle : Bool
  deriving DecidableEq, Repr

/-- The four light color states of a junction, in array order. -/
def lightStates (j : Junction) : LightState × LightState × LightState × LightState :=
  (j.tl0.currentState, j.tl1.currentState, j.tl2.currentState, j.tl3.currentState)

/-- `Simulation.applyJunctionPhaseState(junction)`: look up the current
phase, set all four lights RED through the non-priority path, then set the
phase's GREEN/YELLOW lights.  The source warns and returns when the
junction lacks four lights (our record always has four) or crashes on an
out-of-range phase index (modelled as a no-op; the index always stays in
range in the simulation).  The `silent` flag only suppresses logs. -/
def applyJunctionPhaseState (j : Junction) : Junction :=
  match JUNCTION_CYCLE_DEFINITION.get? j.currentPhaseIndex with
  | none => j
  | some entry =>
    let j := { j with
      tl0 := setLightState j.tl0 RED false,
      tl1 := setLightState j.tl1 RED false,
      tl2 := setLightState j.tl2 RED false,
      tl3 := setLightState j.tl3 RED false }
    match entry.phase with
    | EW_GREEN => { j with tl3 := setLightState j.tl3 GREEN false,
                           tl2 := setLightState j.tl2 GREEN false }
    | EW_YELLOW => { j with tl3 := setLightState j.tl3 YELLOW false,
                            tl2 := setLightState j.tl2 YELLOW false }
    | NS_GREEN => { j with tl1 := setLightState j.tl1 GREEN false,
                           tl0 := setLightState j.tl0 GREEN false }
    | NS_YELLOW => { j with tl1 := setLightState j.tl1 YELLOW false,
                            tl0 := setLightState j.tl0 YELLOW false }
    | ALL_RED => j

/-- `Simulation.controlTrafficLightsForJunction(junctionId, give)` applied
to the junction it finds.  Priority: east/west-bound lights green override,
north/south red override.  Release: clear all overrides, reset the cycle to
the first `ALL_RED` entry with its full duration (in seconds), re-apply the
phase. -/
def controlTrafficLightsForJunction (j : Junction) (givePriorityToAmbulance : Bool) :
    Junction :=
  if givePriorityToAmbulance then
    { j with isUnderNormalCycle := false,
             tl3 := setPriority j.tl3 true,
             tl2 := setPriority j.tl2 true,
             tl1 := setPriority j.tl1 false,
             tl0 := setPriority j.tl0 false }
  else
    let j := { j with
      tl0 := releasePriority j.tl0,
      tl1 := releasePriority j.tl1,
      tl2 := releasePriority j.tl2,
      tl3 := releasePriority j.tl3,
      isUnderNormalCycle := true }
    let initialPhaseIndex :=
      (JUNCTION_CYCLE_DEFINITION.findIdx? (fun p => p.phase == ALL_RED)).getD 0
    let j := { j with
      currentPhaseIndex := initialPhaseIndex,
      currentPhaseTimer :=
        (((JUNCTION_CYCLE_DEFINITION.get? initialPhaseIndex).map
          (fun e => e.duration)).getD 1000 : ℚ) / 1000 }
    applyJunctionPhaseState j

/-- Duration of cycle phase `i` in seconds: the entry's millisecond
duration (with the source's `|| 1000` fallback) divided by 1000, as in
lines 82, 469 and 482 of `main.js`. -/
def durSec (i : ℕ) : ℚ :=
  (((JUNCTION_CYCLE_DEFINITION.get? i).map (fun e => e.duration)).getD 1000 : ℚ) / 1000

/-- `Simulation.manageJunctionCycles(deltaTime)` restricted to one
junction: under normal cycling, decrement the timer; at or below zero
advance to the next phase (mod 6), reset the timer to that phase's duration
in seconds, and apply the phase's light states. -/
def manageJunctionCycleStep (j : Junction) (deltaTime : ℚ) : Junction :=
  if j.isUnderNormalCycle then
    let timer := j.currentPhaseTimer - deltaTime
    if timer ≤ 0 then
      let nextIndex := (j.currentPhaseIndex + 1) % JUNCTION_CYCLE_DEFINITION.length
      let j := { j with
        currentPhaseIndex := nextIndex,
        currentPhaseTimer := durSec nextIndex }
      applyJunctionPhaseState j
    else
      { j with currentPhaseTimer := timer }
  else
    j

/-! ### Ambulance, from `js/Ambulance.js` -/

/-- Emergency-vehicle state.  `hasModel` models the truthiness of
`this.model` (the loaded GLTF scene or box placeholder). -/
structure Ambulance where
  path : List Vec3
  currentPathIndex : ℕ
  position : Vec3
  speed : ℚ
  isDeactivating : Bool
  fadeOutTimer : ℚ
  hasFadedOut : Bool
  hasModel : Bool
  deriving DecidableEq, Repr

/-- `Ambulance.activate()`: reset the path index, fade state and scale,
restore opacity, and teleport back to the path start (siren and status-text
effects are presentation-only).  It touches only the ambulance itself —
no junction field. -/
def ambulanceActivate (a : Ambulance) : Ambulance :=
  let a := { a with currentPathIndex := 0, isDeactivating := false,
                    hasFadedOut := false, fadeOutTimer := 0 }
  match a.path.head? with
  | some p => { a with position := p }
  | none => a

/-- `Ambulance.deactivate()`: begin the fade-out sequence. -/
def ambulanceDeactivate (a : Ambulance) : Ambulance :=
  { a with isDeactivating := true }

/-! ### Preemption coordinator, from `Simulation.updateAmbulanceLogic`
in `js/main.js`.  The per-junction body of the `forEach` is decomposed
into the radius-preemption step, the reflector-scan step and the
release step, executed in that order. -/

/-- Lines 328–338: is the ambulance judged to be moving toward this
junction center?  True when the current path target and the position lie
on opposite sides of the center (product ≤ 0), when the target lies
beyond the center in the travel direction with the center strictly
closer, or unconditionally when within `1.5 × junctionSize` of the
center. -/
def ambulanceMovingTowardsJunction (a : Ambulance) (j : Junction) : Bool :=
  let base :=
    match a.path.get? a.currentPathIndex with
    | some target =>
        if (target.x - j.center.x) * (a.position.x - j.center.x) ≤ 0 then
          true
        else
          decide (sgn (target.x - a.position.x) = sgn (j.center.x - a.position.x)) &&
          decide (|j.center.x - a.position.x| < |target.x - a.position.x|)
    | none => false
  base || decide (distSq a.position j.center < (junctionSize * (3/2)) ^ 2)

/-- Lines 394–397: sign of the ambulance's X direction of travel, taken
toward the next path point when one exists, else toward the current
target. -/
def ambulanceDirectionX (a : Ambulance) : ℤ :=
  if 1 < a.path.length ∧ a.currentPathIndex < a.path.length - 1 then
    match a.path.get? (a.currentPathIndex + 1) with
    | some p => sgn (p.x - a.position.x)
    | none => 0
  else if 0 < a.path.length ∧ a.currentPathIndex < a.path.length then
    match a.path.get? a.currentPathIndex with
    | some p => sgn (p.x - a.position.x)
    | none => 0
  else 0

/-- Line 399: the release threshold past the junction center. -/
def passedJunctionThreshold : ℚ := junctionSize / 2 + roadWidth

/-- Lines 401–406: the ambulance position is beyond the threshold past the
center in its direction of travel. -/
def hasPhysicallyPassedJunction (a : Ambulance) (j : Junction) : Bool :=
  let d := ambulanceDirectionX a
  if d > 0 then decide (a.position.x > j.center.x + passedJunctionThreshold)
  else if d < 0 then decide (a.position.x < j.center.x - passedJunctionThreshold)
  else false

/-- Lines 409–417: the current path target is also past the threshold.  At
the last path index this is set true unconditionally; the `none` branch
(target missing) mirrors the source's `currentPathIndex >= path.length-1`
fallback and is unreachable while the top-level guard holds. -/
def targetIsPastJunction (a : Ambulance) (j : Junction) : Bool :=
  let d := ambulanceDirectionX a
  match a.path.get? a.currentPathIndex with
  | some target =>
      (decide (d > 0) && decide (target.x > j.center.x + passedJunctionThreshold)) ||
      (decide (d < 0) && decide (target.x < j.center.x - passedJunctionThreshold)) ||
      decide (a.currentPathIndex = a.path.length - 1)
  | none => decide (a.path.length - 1 ≤ a.currentPathIndex)

/-- Lines 342–353: radius-based preemption trigger.  When the junction is
not already preempting, the ambulance is moving toward it and within the
preemption radius, issue light priority and mark the junction
preempting. -/
def preemptStep (a : Ambulance) (j : Junction) : Junction :=
  if !j.isAmbulanceApproaching && ambulanceMovingTowardsJunction a j &&
      decide (distSq a.position j.center < ambulancePreemptionRadius ^ 2) then
    let j := controlTrafficLightsForJunction j true
    { j with isAmbulanceApproaching := true, isUnderNormalCycle := false }
  else
    j

/-- The firing condition of one reflector during the scan (line 360–361):
direct siren detection, or chain propagation from the most recently
chained reflector. -/
def reflectorFireCond (a : Ambulance) (chain : List ℕ) (lastPos : Option Vec3)
    (r : Reflector) : Bool :=
  canDetectAmbulance r a.position ||
    (!chain.isEmpty &&
      match lastPos with
      | some p => isAmbulanceNear r p
      | none => false)

/-- The `for … of` loop of lines 357–390 restricted to finding which
reflector fires: skip reflectors already in the chain, stop at the first
one whose firing condition holds, return its index. -/
def scanLoop (a : Ambulance) (chain : List ℕ) (lastPos : Option Vec3) :
    ℕ → List Reflector → Option ℕ
  | _, [] => none
  | i, r :: rest =>
    if i ∈ chain then scanLoop a chain lastPos (i + 1) rest
    else if reflectorFireCond a chain lastPos r then some i
    else scanLoop a chain lastPos (i + 1) rest

/-- Position of the most recently chained reflector, if any. -/
def lastChainedPos (j : Junction) : Option Vec3 :=
  (j.reflectorChain.getLast?.bind (fun i => j.reflectors.get? i)).map
    (fun r => r.position)

/-- Lines 356–391: the reflector activation step.  Scans only when the
junction has reflectors and the ambulance is moving toward it.  The fired
reflector starts its pulse and is appended to the chain; if this is the
junction's first trigger (not yet preempting), light priority is issued
exactly as in the radius branch. -/
def reflectorScanStep (a : Ambulance) (j : Junction) : Junction :=
  if !j.reflectors.isEmpty && ambulanceMovingTowardsJunction a j then
    match scanLoop a j.reflectorChain (lastChainedPos j) 0 j.reflectors with
    | none => j
    | some i =>
      let j := { j with
        reflectors :=
          match j.reflectors.get? i with
          | some r => j.reflectors.set i (triggerSignal r)
          | none => j.reflectors,
        reflectorChain := j.reflectorChain ++ [i] }
      if !j.isAmbulanceApproaching then
        let j := controlTrafficLightsForJunction j true
        { j with isAmbulanceApproaching := true, isUnderNormalCycle := false }
      else
        j
  else
    j

/-- Lines 400–429: the release step.  When the junction is preempting and
both the position and the current path target are judged past the
junction, release the lights, clear the preemption state, remember the
pass and empty the reflector chain. -/
def releaseStep (a : Ambulance) (j : Junction) : Junction :=
  if j.isAmbulanceApproaching && hasPhysicallyPassedJunction a j &&
      targetIsPastJunction a j then
    let j := controlTrafficLightsForJunction j false
    { j with isAmbulanceApproaching := false,
             hasAmbulancePassed := true,
             reflectorChain := [],
             isUnderNormalCycle := true }
  else
    j

/-- The whole per-junction body of `updateAmbulanceLogic`'s `forEach`
(lines 323–430): skip junctions the ambulance has passed, otherwise run
the radius trigger, the reflector scan and the release check in source
order. -/
def updateAmbulanceForJunction (a : Ambulance) (j : Junction) : Junction :=
  if j.hasAmbulancePassed then j
  else releaseStep a (reflectorScanStep a (preemptStep a j))

/-- `Simulation.updateAmbulanceLogic()` over the junction list, including
the early-return guards of lines 317–318. -/
def updateAmbulanceLogic (a : Ambulance) (junctions : List Junction) : List Junction :=
  if !a.hasModel || a.path.isEmpty || a.path.length ≤ a.currentPathIndex then
    junctions
  else
    junctions.map (updateAmbulanceForJunction a)

/-! ### Helper lemmas -/

theorem setLightState_isOverridden (l : TrafficLight) (s : LightState) (p : Bool) :
    (setLightState l s p).isOverridden = l.isOverridden := by
  unfold setLightState
  split
  · rfl
  · cases s <;> rfl

theorem setLightState_currentState (l : TrafficLight) (s : LightState)
    (h : l.isOverridden = false) :
    (setLightState l s false).currentState = s := by
  unfold setLightState
  rw [h]
  cases s <;> rfl

/-! ### Claim theorems -/

/-- The phase→light mapping as the spec states it, for comparison with the
code: the four colors are listed in the source's light-array order
(south-bound, north-bound, west-bound, east-bound).  EW phases color the
east- and west-bound lights, NS phases the north- and south-bound ones,
ALL_RED colors everything red. -/
def specPhaseLightMap : Phase → LightState × LightState × LightState × LightState
  | EW_GREEN => (RED, RED, GREEN, GREEN)
  | EW_YELLOW => (RED, RED, YELLOW, YELLOW)
  | NS_GREEN => (GREEN, GREEN, RED, RED)
  | NS_YELLOW => (YELLOW, YELLOW, RED, RED)
  | ALL_RED => (RED, RED, RED, RED)

/-- C2: applying a phase to a junction with four configured lights (none
overridden) sets the light colors to a pure function of the phase name —
EW_GREEN/EW_YELLOW make the east- and west-bound lights GREEN/YELLOW and
the north/south ones RED, NS phases mirror this, ALL_RED makes all four
RED — independent of the junction's identity. -/
theorem applyPhase_matches_spec_map (j : Junction) (entry : CycleEntry)
    (hE : JUNCTION_CYCLE_DEFINITION.get? j.currentPhaseIndex = some entry)
    (h0 : j.tl0.isOverridden = false) (h1 : j.tl1.isOverridden = false)
    (h2 : j.tl2.isOverridden = false) (h3 : j.tl3.isOverridden = false) :
    lightStates (applyJunctionPhaseState j) = specPhaseLightMap entry.phase := by
  obtain ⟨p, d⟩ := entry
  unfold applyJunctionPhaseState
  rw [hE]
  cases p <;>
    simp [lightStates, specPhaseLightMap, setLightState_currentState,
      setLightState_isOverridden, h0, h1, h2, h3]

/-- A light with no override, red lamp lit (the initial state built in the
`TrafficLight` constructor). -/
def initialTrafficLight : TrafficLight :=
  { currentState := RED, isOverridden := false,
    redLamp := onLamp redOnColor,
    yellowLamp := offLamp yellowOffColor,
    greenLamp := offLamp greenOffColor }

/-- A junction as `setupEnvironment` builds it: phase index 0, timer at the
first phase's duration in seconds, normal cycling, nothing detected yet. -/
def initialJunction : Junction :=
  { id := 0, center := ⟨0, roadSurfaceY, 0⟩,
    tl0 := initialTrafficLight, tl1 := initialTrafficLight,
    tl2 := initialTrafficLight, tl3 := initialTrafficLight,
    reflectors := [], reflectorChain := [],
    isAmbulanceApproaching := false, hasAmbulancePassed := false,
    currentPhaseIndex := 0, currentPhaseTimer := 8,
    isUnderNormalCycle := true }

/-- Witness for C2 at a concrete junction in phase 0 (EW_GREEN). -/
theorem applyPhase_matches_spec_map_witness :
    lightStates (applyJunctionPhaseState initialJunction) =
      specPhaseLightMap EW_GREEN :=
  applyPhase_matches_spec_map initialJunction ⟨EW_GREEN, 8000⟩ rfl rfl rfl rfl rfl

/-- C3: while a light's `isOverridden` flag is true, a `setLightState` call
that is not a priority override leaves the whole light — color state and
lamp appearance — unchanged, without error (the source silently ignores
it, only logging). -/
theorem overridden_light_ignores_normal_set (l : TrafficLight) (s : LightState)
    (h : l.isOverridden = true) : setLightState l s false = l := by
  simp [setLightState, h]

/-- A light currently under green priority override. -/
def overriddenGreenLight : TrafficLight :=
  { currentState := GREEN, isOverridden := true,
    redLamp := offLamp redOffColor,
    yellowLamp := offLamp yellowOffColor,
    greenLamp := onLamp greenOnColor }

/-- Witness for C3: a concrete overridden light ignores a RED request. -/
theorem overridden_light_ignores_normal_set_witness :
    setLightState overriddenGreenLight RED false = overriddenGreenLight :=
  overridden_light_ignores_normal_set overriddenGreenLight RED rfl

/-! ### Preservation lemmas for the preemption steps -/

theorem applyPhase_hasPassed (j : Junction) :
    (applyJunctionPhaseState j).hasAmbulancePassed = j.hasAmbulancePassed := by
  unfold applyJunctionPhaseState
  rcases JUNCTION_CYCLE_DEFINITION.get? j.currentPhaseIndex with _ | ⟨p, d⟩
  · rfl
  · cases p <;> rfl

theorem applyPhase_center (j : Junction) :
    (applyJunctionPhaseState j).center = j.center := by
  unfold applyJunctionPhaseState
  rcases JUNCTION_CYCLE_DEFINITION.get? j.currentPhaseIndex with _ | ⟨p, d⟩
  · rfl
  · cases p <;> rfl

theorem controlTLFJ_hasPassed (j : Junction) (b : Bool) :
    (controlTrafficLightsForJunction j b).hasAmbulancePassed = j.hasAmbulancePassed := by
  unfold controlTrafficLightsForJunction
  cases b
  · simp [applyPhase_hasPassed]
  · rfl

theorem controlTLFJ_center (j : Junction) (b : Bool) :
    (controlTrafficLightsForJunction j b).center = j.center := by
  unfold controlTrafficLightsForJunction
  cases b
  · simp [applyPhase_center]
  · rfl

theorem preemptStep_hasPassed (a : Ambulance) (j : Junction) :
    (preemptStep a j).hasAmbulancePassed = j.hasAmbulancePassed := by
  unfold preemptStep
  split
  · simp [controlTLFJ_hasPassed]
  · rfl

theorem preemptStep_center (a : Ambulance) (j : Junction) :
    (preemptStep a j).center = j.center := by
  unfold preemptStep
  split
  · simp [controlTLFJ_center]
  · rfl

theorem reflectorScanStep_hasPassed (a : Ambulance) (j : Junction) :
    (reflectorScanStep a j).hasAmbulancePassed = j.hasAmbulancePassed := by
  unfold reflectorScanStep
  split
  · rcases scanLoop a j.reflectorChain (lastChainedPos j) 0 j.reflectors with _ | i
    · rfl
    · simp only
      split
      · simp [controlTLFJ_hasPassed]
      · rfl
  · rfl

theorem reflectorScanStep_center (a : Ambulance) (j : Junction) :
    (reflectorScanStep a j).center = j.center := by
  unfold reflectorScanStep
  split
  · rcases scanLoop a j.reflectorChain (lastChainedPos j) 0 j.reflectors with _ | i
    · rfl
    · simp only
      split
      · simp [controlTLFJ_center]
      · rfl
  · rfl

/-- `hasPhysicallyPassedJunction` depends on the junction only through its
center. -/
theorem hasPhysicallyPassed_congr (a : Ambulance) (j1 j2 : Junction)
    (h : j1.center = j2.center) :
    hasPhysicallyPassedJunction a j1 = hasPhysicallyPassedJunction a j2 := by
  unfold hasPhysicallyPassedJunction
  rw [h]

/-- `targetIsPastJunction` depends on the junction only through its
center. -/
theorem targetIsPast_congr (a : Ambulance) (j1 j2 : Junction)
    (h : j1.center = j2.center) :
    targetIsPastJunction a j1 = targetIsPastJunction a j2 := by
  unfold targetIsPastJunction
  rw [h]

theorem sgn_pos_iff (q : ℚ) : sgn q > 0 ↔ 0 < q := by
  unfold sgn
  split
  · simp_all
  · split <;> simp_all

theorem sgn_neg_iff (q : ℚ) : sgn q < 0 ↔ q < 0 := by
  unfold sgn
  split
  · constructor
    · intro h; omega
    · intro h; linarith
  · split <;> simp_all

/-- At the last path index, the travel direction is computed from the
current target itself. -/
theorem directionX_at_last (a : Ambulance) (t : Vec3)
    (hIdx : a.currentPathIndex < a.path.length)
    (hLast : a.currentPathIndex = a.path.length - 1)
    (ht : a.path.get? a.currentPathIndex = some t) :
    ambulanceDirectionX a = sgn (t.x - a.position.x) := by
  unfold ambulanceDirectionX
  rw [if_neg (by omega), if_pos (by omega), ht]

/-- Core of C1: whenever the code's two-part pass check holds, the
ambulance position and its current path target are both strictly beyond
the release threshold past the junction center, in the direction of
travel. -/
theorem passCheck_sound (a : Ambulance) (j : Junction)
    (hIdx : a.currentPathIndex < a.path.length)
    (hPP : hasPhysicallyPassedJunction a j = true)
    (hTP : targetIsPastJunction a j = true) :
    ∃ t, a.path.get? a.currentPathIndex = some t ∧
      ((ambulanceDirectionX a > 0 ∧
          a.position.x > j.center.x + passedJunctionThreshold ∧
          t.x > j.center.x + passedJunctionThreshold) ∨
       (ambulanceDirectionX a < 0 ∧
          a.position.x < j.center.x - passedJunctionThreshold ∧
          t.x < j.center.x - passedJunctionThreshold)) := by
  obtain ⟨t, ht⟩ : ∃ t, a.path.get? a.currentPathIndex = some t := by
    rw [List.get?_eq_get hIdx]; exact ⟨_, rfl⟩
  refine ⟨t, ht, ?_⟩
  unfold hasPhysicallyPassedJunction at hPP
  unfold targetIsPastJunction at hTP
  rw [ht] at hTP
  by_cases hd : ambulanceDirectionX a > 0
  · rw [if_pos hd] at hPP
    simp only [decide_eq_true_eq] at hPP
    left
    refine ⟨hd, hPP, ?_⟩
    simp only [Bool.or_eq_true, Bool.and_eq_true, decide_eq_true_eq] at hTP
    rcases hTP with (⟨_, hTx⟩ | ⟨hneg, _⟩) | hLast
    · exact hTx
    · omega
    · have hdir := directionX_at_last a t hIdx hLast ht
      rw [hdir] at hd
      have : 0 < t.x - a.position.x := (sgn_pos_iff _).mp hd
      linarith
  · rw [if_neg hd] at hPP
    by_cases hd2 : ambulanceDirectionX a < 0
    · rw [if_pos hd2] at hPP
      simp only [decide_eq_true_eq] at hPP
      right
      refine ⟨hd2, hPP, ?_⟩
      simp only [Bool.or_eq_true, Bool.and_eq_true, decide_eq_true_eq] at hTP
      rcases hTP with (⟨hpos, _⟩ | ⟨_, hTx⟩) | hLast
      · omega
      · exact hTx
      · have hdir := directionX_at_last a t hIdx hLast ht
        rw [hdir] at hd2
        have : t.x - a.position.x < 0 := (sgn_neg_iff _).mp hd2
        linarith
    · rw [if_neg hd2] at hPP
      exact absurd hPP (by simp)

/-- C1: for a junction in the preempted state, the `PREEMPTED→NORMAL`
release fires only on a tick in which the emergency vehicle's position is
beyond the release threshold past the junction center in its direction of
travel AND its current path-target point is also past that threshold —
never earlier. -/
theorem release_only_when_past (a : Ambulance) (j : Junction)
    (hIdx : a.currentPathIndex < a.path.length)
    (hNot : j.hasAmbulancePassed = false)
    (hFired : (updateAmbulanceForJunction a j).hasAmbulancePassed = true) :
    ∃ t, a.path.get? a.currentPathIndex = some t ∧
      ((ambulanceDirectionX a > 0 ∧
          a.position.x > j.center.x + passedJunctionThreshold ∧
          t.x > j.center.x + passedJunctionThreshold) ∨
       (ambulanceDirectionX a < 0 ∧
          a.position.x < j.center.x - passedJunctionThreshold ∧
          t.x < j.center.x - passedJunctionThreshold)) := by
  unfold updateAmbulanceForJunction at hFired
  rw [hNot] at hFired
  simp only [Bool.false_eq_true, if_false] at hFired
  set j2 := reflectorScanStep a (preemptStep a j) with hj2
  have hj2pass : j2.hasAmbulancePassed = false := by
    rw [hj2, reflectorScanStep_hasPassed, preemptStep_hasPassed]; exact hNot
  have hcen : j2.center = j.center := by
    rw [hj2, reflectorScanStep_center, preemptStep_center]
  unfold releaseStep at hFired
  split at hFired
  case isTrue hG =>
    simp only [Bool.and_eq_true] at hG
    obtain ⟨⟨_, hPP⟩, hTP⟩ := hG
    rw [hasPhysicallyPassed_congr a j2 j hcen] at hPP
    rw [targetIsPast_congr a j2 j hcen] at hTP
    exact passCheck_sound a j hIdx hPP hTP
  case isFalse =>
    rw [hj2pass] at hFired
    exact absurd hFired (by simp)

/-- An emergency vehicle heading east, already past the sample junction,
targeting the final path point. -/
def ambPastJunction : Ambulance :=
  { path := [⟨-100, 1/4, -7/4⟩, ⟨200, 1/4, -7/4⟩], currentPathIndex := 1,
    position := ⟨20, 1/4, -7/4⟩, speed := 1/4, isDeactivating := false,
    fadeOutTimer := 0, hasFadedOut := false, hasModel := true }

/-- A junction at the origin, currently in the preempted state. -/
def preemptingJunction : Junction :=
  { initialJunction with isAmbulanceApproaching := true, isUnderNormalCycle := false }

/-- Witness for C1 at a concrete release: the vehicle at x = 20 with target
x = 200 releases the junction at x = 0 (threshold 14), and both are indeed
past the threshold. -/
theorem release_only_when_past_witness :
    ∃ t, ambPastJunction.path.get? ambPastJunction.currentPathIndex = some t ∧
      ((ambulanceDirectionX ambPastJunction > 0 ∧
          ambPastJunction.position.x >
            preemptingJunction.center.x + passedJunctionThreshold ∧
          t.x > preemptingJunction.center.x + passedJunctionThreshold) ∨
       (ambulanceDirectionX ambPastJunction < 0 ∧
          ambPastJunction.position.x <
            preemptingJunction.center.x - passedJunctionThreshold ∧
          t.x < preemptingJunction.center.x - passedJunctionThreshold)) :=
  release_only_when_past ambPastJunction preemptingJunction (by decide) rfl
    (by norm_num [updateAmbulanceForJunction, releaseStep, reflectorScanStep,
      preemptStep, controlTrafficLightsForJunction, applyJunctionPhaseState,
      hasPhysicallyPassedJunction, targetIsPastJunction, ambulanceDirectionX,
      ambulanceMovingTowardsJunction, scanLoop, lastChainedPos,
      reflectorFireCond, canDetectAmbulance, isAmbulanceNear, distSq, sgn,
      passedJunctionThreshold, junctionSize, roadWidth,
      ambulancePreemptionRadius, setPriority, setLightState, releasePriority,
      JUNCTION_CYCLE_DEFINITION, ambPastJunction, preemptingJunction,
      initialJunction, initialTrafficLight, roadSurfaceY])

/-- The first `ALL_RED` entry of the cycle definition sits at index 2. -/
theorem allRedIndex_eq :
    (JUNCTION_CYCLE_DEFINITION.findIdx? (fun p => p.phase == ALL_RED)).getD 0 = 2 := by
  rfl

/-- Index 2 of the cycle definition is the 1000 ms ALL_RED safety phase. -/
theorem cycleEntry_two : JUNCTION_CYCLE_DEFINITION.get? 2 = some ⟨ALL_RED, 1000⟩ := by
  rfl

/-- Same fact in `getElem?` form, for `simp`-normalized goals. -/
theorem cycleEntry_two_getElem :
    (JUNCTION_CYCLE_DEFINITION[2]? : Option CycleEntry) = some ⟨ALL_RED, 1000⟩ := by
  rfl

/-- Releasing a junction's lights clears every override, resets the cycle
to phase index 2 (ALL_RED) with its full one-second duration, and leaves
the reflector chain and pass flag alone. -/
theorem controlTLFJ_false_fields (j : Junction) :
    (controlTrafficLightsForJunction j false).tl0.isOverridden = false ∧
    (controlTrafficLightsForJunction j false).tl1.isOverridden = false ∧
    (controlTrafficLightsForJunction j false).tl2.isOverridden = false ∧
    (controlTrafficLightsForJunction j false).tl3.isOverridden = false ∧
    (controlTrafficLightsForJunction j false).currentPhaseIndex = 2 ∧
    (controlTrafficLightsForJunction j false).currentPhaseTimer = 1 := by
  unfold controlTrafficLightsForJunction
  simp only [Bool.false_eq_true, if_false, allRedIndex_eq]
  unfold applyJunctionPhaseState
  simp [cycleEntry_two, cycleEntry_two_getElem, setLightState_isOverridden,
    releasePriority]

/-- C4: whenever the `PREEMPTED→NORMAL` release fires for a junction, the
same tick releases the override on all four lights, resets the light cycle
to the ALL_RED phase (index 2, 1000 ms) with its full duration of one
second, empties the junction's reflector chain and sets
`hasAmbulancePassed` to true. -/
theorem release_side_effects (a : Ambulance) (j : Junction)
    (hNot : j.hasAmbulancePassed = false)
    (hFired : (updateAmbulanceForJunction a j).hasAmbulancePassed = true) :
    (updateAmbulanceForJunction a j).tl0.isOverridden = false ∧
    (updateAmbulanceForJunction a j).tl1.isOverridden = false ∧
    (updateAmbulanceForJunction a j).tl2.isOverridden = false ∧
    (updateAmbulanceForJunction a j).tl3.isOverridden = false ∧
    (updateAmbulanceForJunction a j).currentPhaseIndex = 2 ∧
    JUNCTION_CYCLE_DEFINITION.get? 2 = some ⟨ALL_RED, 1000⟩ ∧
    (updateAmbulanceForJunction a j).currentPhaseTimer = 1 ∧
    (updateAmbulanceForJunction a j).reflectorChain = [] ∧
    (updateAmbulanceForJunction a j).hasAmbulancePassed = true := by
  unfold updateAmbulanceForJunction at hFired ⊢
  rw [hNot] at hFired ⊢
  simp only [Bool.false_eq_true, if_false] at hFired ⊢
  set j2 := reflectorScanStep a (preemptStep a j) with hj2
  have hj2pass : j2.hasAmbulancePassed = false := by
    rw [hj2, reflectorScanStep_hasPassed, preemptStep_hasPassed]; exact hNot
  unfold releaseStep at hFired ⊢
  split at hFired
  case isTrue hG =>
    rw [if_pos hG]
    obtain ⟨c0, c1, c2, c3, ci, ct⟩ := controlTLFJ_false_fields j2
    exact ⟨c0, c1, c2, c3, ci, cycleEntry_two, ct, rfl, rfl⟩
  case isFalse =>
    rw [hj2pass] at hFired
    exact absurd hFired (by simp)

/-- Witness for C4 at the same concrete release as the C1 witness. -/
theorem release_side_effects_witness :
    (updateAmbulanceForJunction ambPastJunction preemptingJunction).tl0.isOverridden
        = false ∧
    (updateAmbulanceForJunction ambPastJunction preemptingJunction).tl1.isOverridden
        = false ∧
    (updateAmbulanceForJunction ambPastJunction preemptingJunction).tl2.isOverridden
        = false ∧
    (updateAmbulanceForJunction ambPastJunction preemptingJunction).tl3.isOverridden
        = false ∧
    (updateAmbulanceForJunction ambPastJunction preemptingJunction).currentPhaseIndex
        = 2 ∧
    JUNCTION_CYCLE_DEFINITION.get? 2 = some ⟨ALL_RED, 1000⟩ ∧
    (updateAmbulanceForJunction ambPastJunction preemptingJunction).currentPhaseTimer
        = 1 ∧
    (updateAmbulanceForJunction ambPastJunction preemptingJunction).reflectorChain
        = [] ∧
    (updateAmbulanceForJunction ambPastJunction preemptingJunction).hasAmbulancePassed
        = true :=
  release_side_effects ambPastJunction preemptingJunction rfl
    (by norm_num [updateAmbulanceForJunction, releaseStep, reflectorScanStep,
      preemptStep, controlTrafficLightsForJunction, applyJunctionPhaseState,
      hasPhysicallyPassedJunction, targetIsPastJunction, ambulanceDirectionX,
      ambulanceMovingTowardsJunction, scanLoop, lastChainedPos,
      reflectorFireCond, canDetectAmbulance, isAmbulanceNear, distSq, sgn,
      passedJunctionThreshold, junctionSize, roadWidth,
      ambulancePreemptionRadius, setPriority, setLightState, releasePriority,
      JUNCTION_CYCLE_DEFINITION, ambPastJunction, preemptingJunction,
      initialJunction, initialTrafficLight, roadSurfaceY])

/-- `manageJunctionCycles` never touches the pass flag. -/
theorem manageCycle_hasPassed (j : Junction) (dt : ℚ) :
    (manageJunctionCycleStep j dt).hasAmbulancePassed = j.hasAmbulancePassed := by
  unfold manageJunctionCycleStep
  split
  · dsimp only
    split
    · simp [applyPhase_hasPassed]
    · rfl
  · rfl

/-- C10: once `hasAmbulancePassed` is true for a junction, the per-tick
preemption update returns the junction unchanged — also when the ambulance
has just been re-activated through `Ambulance.activate`, which only resets
ambulance-local state — and neither normal cycling, light control nor
phase application ever resets the flag, so a junction enters the preempted
state at most once per run. -/
theorem passed_junction_is_skipped (a : Ambulance) (j : Junction) (dt : ℚ) (b : Bool)
    (h : j.hasAmbulancePassed = true) :
    updateAmbulanceForJunction a j = j ∧
    updateAmbulanceForJunction (ambulanceActivate a) j = j ∧
    (manageJunctionCycleStep j dt).hasAmbulancePassed = true ∧
    (controlTrafficLightsForJunction j b).hasAmbulancePassed = true ∧
    (applyJunctionPhaseState j).hasAmbulancePassed = true := by
  refine ⟨?_, ?_, ?_, ?_, ?_⟩
  · unfold updateAmbulanceForJunction; rw [h]; rfl
  · unfold updateAmbulanceForJunction; rw [h]; rfl
  · rw [manageCycle_hasPassed]; exact h
  · rw [controlTLFJ_hasPassed]; exact h
  · rw [applyPhase_hasPassed]; exact h

/-- A junction the ambulance has already cleared. -/
def clearedJunction : Junction :=
  { initialJunction with hasAmbulancePassed := true }

/-- Witness for C10: the concrete cleared junction is left untouched by
every operation, even after re-activation. -/
theorem passed_junction_is_skipped_witness :
    updateAmbulanceForJunction ambPastJunction clearedJunction = clearedJunction ∧
    updateAmbulanceForJunction (ambulanceActivate ambPastJunction) clearedJunction
      = clearedJunction ∧
    (manageJunctionCycleStep clearedJunction 1).hasAmbulancePassed = true ∧
    (controlTrafficLightsForJunction clearedJunction true).hasAmbulancePassed = true ∧
    (applyJunctionPhaseState clearedJunction).hasAmbulancePassed = true :=
  passed_junction_is_skipped ambPastJunction clearedJunction 1 true rfl

/-! ### The reflector scan fires at most the first eligible sensor -/

theorem applyPhase_chain (j : Junction) :
    (applyJunctionPhaseState j).reflectorChain = j.reflectorChain := by
  unfold applyJunctionPhaseState
  rcases JUNCTION_CYCLE_DEFINITION.get? j.currentPhaseIndex with _ | ⟨p, d⟩
  · rfl
  · cases p <;> rfl

theorem controlTLFJ_chain (j : Junction) (b : Bool) :
    (controlTrafficLightsForJunction j b).reflectorChain = j.reflectorChain := by
  unfold controlTrafficLightsForJunction
  cases b
  · simp [applyPhase_chain]
  · rfl

theorem applyPhase_reflectors (j : Junction) :
    (applyJunctionPhaseState j).reflectors = j.reflectors := by
  unfold applyJunctionPhaseState
  rcases JUNCTION_CYCLE_DEFINITION.get? j.currentPhaseIndex with _ | ⟨p, d⟩
  · rfl
  · cases p <;> rfl

theorem controlTLFJ_reflectors (j : Junction) (b : Bool) :
    (controlTrafficLightsForJunction j b).reflectors = j.reflectors := by
  unfold controlTrafficLightsForJunction
  cases b
  · simp [applyPhase_reflectors]
  · rfl

/-- Soundness of the scan loop: a returned index is at least the start
index, in bounds, not yet chained, its reflector satisfies the firing
condition, and every unchained index scanned before it does not. -/
theorem scanLoop_spec (a : Ambulance) (chain : List ℕ) (lastPos : Option Vec3) :
    ∀ (l : List Reflector) (start i : ℕ),
      scanLoop a chain lastPos start l = some i →
      start ≤ i ∧ i - start < l.length ∧ i ∉ chain ∧
      (∃ r, l.get? (i - start) = some r ∧
        reflectorFireCond a chain lastPos r = true) ∧
      (∀ k, start ≤ k → k < i → k ∉ chain →
        ∀ r2, l.get? (k - start) = some r2 →
          reflectorFireCond a chain lastPos r2 = false) := by
  intro l
  induction l with
  | nil => intro start i h; simp [scanLoop] at h
  | cons r rest ih =>
    intro start i h
    unfold scanLoop at h
    by_cases hmem : start ∈ chain
    · rw [if_pos hmem] at h
      obtain ⟨h1, h2, h3, ⟨r3, hr3, hc3⟩, h5⟩ := ih (start + 1) i h
      refine ⟨by omega, by simp only [List.length_cons]; omega, h3, ⟨r3, ?_, hc3⟩, ?_⟩
      · have hstep : i - start = (i - (start + 1)) + 1 := by omega
        rw [hstep, List.get?_cons_succ]; exact hr3
      · intro k hk1 hk2 hk3 r2 hr2
        rcases Nat.eq_or_lt_of_le hk1 with heq | hlt
        · subst heq; exact absurd hmem hk3
        · have hstep : k - start = (k - (start + 1)) + 1 := by omega
          rw [hstep, List.get?_cons_succ] at hr2
          exact h5 k (by omega) hk2 hk3 r2 hr2
    · rw [if_neg hmem] at h
      by_cases hfire : reflectorFireCond a chain lastPos r = true
      · rw [if_pos hfire] at h
        obtain rfl : start = i := by simpa using h
        refine ⟨le_refl _, by simp, hmem, ⟨r, by simp, hfire⟩, ?_⟩
        intro k hk1 hk2
        omega
      · rw [if_neg hfire] at h
        obtain ⟨h1, h2, h3, ⟨r3, hr3, hc3⟩, h5⟩ := ih (start + 1) i h
        refine ⟨by omega, by simp only [List.length_cons]; omega, h3, ⟨r3, ?_, hc3⟩, ?_⟩
        · have hstep : i - start = (i - (start + 1)) + 1 := by omega
          rw [hstep, List.get?_cons_succ]; exact hr3
        · intro k hk1 hk2 hk3 r2 hr2
          rcases Nat.eq_or_lt_of_le hk1 with heq | hlt
          · subst heq
            rw [Nat.sub_self, List.get?_cons_zero] at hr2
            obtain rfl : r = r2 := by simpa using hr2
            simpa using hfire
          · have hstep : k - start = (k - (start + 1)) + 1 := by omega
            rw [hstep, List.get?_cons_succ] at hr2
            exact h5 k (by omega) hk2 hk3 r2 hr2

/-- Completeness of the scan loop: when it returns nothing, every index
not yet in the chain whose reflector is scanned fails the firing
condition. -/
theorem scanLoop_none_spec (a : Ambulance) (chain : List ℕ) (lastPos : Option Vec3) :
    ∀ (l : List Reflector) (start : ℕ),
      scanLoop a chain lastPos start l = none →
      ∀ k, start ≤ k → k ∉ chain →
        ∀ r, l.get? (k - start) = some r →
          reflectorFireCond a chain lastPos r = false := by
  intro l
  induction l with
  | nil =>
    intro start h k hk1 hkc r hr
    simp at hr
  | cons r rest ih =>
    intro start h k hk1 hkc r2 hr2
    unfold scanLoop at h
    by_cases hmem : start ∈ chain
    · rw [if_pos hmem] at h
      rcases Nat.eq_or_lt_of_le hk1 with heq | hlt
      · subst heq; exact absurd hmem hkc
      · have hstep : k - start = (k - (start + 1)) + 1 := by omega
        rw [hstep, List.get?_cons_succ] at hr2
        exact ih (start + 1) h k (by omega) hkc r2 hr2
    · rw [if_neg hmem] at h
      by_cases hfire : reflectorFireCond a chain lastPos r = true
      · rw [if_pos hfire] at h
        exact absurd h (by simp)
      · rw [if_neg hfire] at h
        rcases Nat.eq_or_lt_of_le hk1 with heq | hlt
        · subst heq
          rw [Nat.sub_self, List.get?_cons_zero] at hr2
          obtain rfl : r = r2 := by simpa using hr2
          simpa using hfire
        · have hstep : k - start = (k - (start + 1)) + 1 := by omega
          rw [hstep, List.get?_cons_succ] at hr2
          exact ih (start + 1) h k (by omega) hkc r2 hr2

/-- C5: in one tick's scan of a junction, either the chain and reflectors
are unchanged — and then the junction was not scanned at all (no
reflectors, or the ambulance not moving toward it) or no reflector outside
the chain satisfies the firing condition — or exactly the first reflector
(in placement order) that is not yet chained and satisfies "direct siren
detection OR (chain non-empty AND near the most recently chained sensor)"
fires its signal pulse and is appended to the chain, and scanning stops —
so the chain grows by at most one entry per tick per junction. -/
theorem reflector_scan_one_hop (a : Ambulance) (j : Junction) :
    (reflectorScanStep a j).reflectorChain.length ≤ j.reflectorChain.length + 1 ∧
    (((reflectorScanStep a j).reflectorChain = j.reflectorChain ∧
        (reflectorScanStep a j).reflectors = j.reflectors ∧
        ((!j.reflectors.isEmpty && ambulanceMovingTowardsJunction a j) = false ∨
          ∀ k r2, k ∉ j.reflectorChain → j.reflectors.get? k = some r2 →
            reflectorFireCond a j.reflectorChain (lastChainedPos j) r2 = false)) ∨
      ∃ i r, (reflectorScanStep a j).reflectorChain = j.reflectorChain ++ [i] ∧
        (reflectorScanStep a j).reflectors = j.reflectors.set i (triggerSignal r) ∧
        i ∉ j.reflectorChain ∧ j.reflectors.get? i = some r ∧
        reflectorFireCond a j.reflectorChain (lastChainedPos j) r = true ∧
        ∀ k r2, k < i → k ∉ j.reflectorChain → j.reflectors.get? k = some r2 →
          reflectorFireCond a j.reflectorChain (lastChainedPos j) r2 = false) := by
  by_cases hg : (!j.reflectors.isEmpty && ambulanceMovingTowardsJunction a j) = true
  · rcases hscan : scanLoop a j.reflectorChain (lastChainedPos j) 0 j.reflectors
      with _ | i
    · have hres : reflectorScanStep a j = j := by
        unfold reflectorScanStep; rw [if_pos hg, hscan]
      rw [hres]
      refine ⟨by omega, Or.inl ⟨rfl, rfl, Or.inr ?_⟩⟩
      intro k r2 hkc hr2
      exact scanLoop_none_spec a j.reflectorChain (lastChainedPos j) j.reflectors
        0 hscan k (Nat.zero_le k) hkc r2 (by rw [Nat.sub_zero]; exact hr2)
    · obtain ⟨-, h2, h3, ⟨r, hr, hc⟩, h5⟩ :=
        scanLoop_spec a j.reflectorChain (lastChainedPos j) j.reflectors 0 i hscan
      rw [Nat.sub_zero] at hr
      have hchain : (reflectorScanStep a j).reflectorChain =
          j.reflectorChain ++ [i] := by
        unfold reflectorScanStep
        rw [if_pos hg, hscan]
        dsimp only
        split
        · simp [controlTLFJ_chain]
        · rfl
      have hrefl : (reflectorScanStep a j).reflectors =
          j.reflectors.set i (triggerSignal r) := by
        unfold reflectorScanStep
        rw [if_pos hg, hscan]
        dsimp only
        rw [hr]
        split
        · simp [controlTLFJ_reflectors]
        · rfl
      refine ⟨?_, Or.inr ⟨i, r, hchain, hrefl, h3, hr, hc, ?_⟩⟩
      · rw [hchain]; simp
      · intro k r2 hk hkc hr2
        exact h5 k (Nat.zero_le k) hk hkc r2 (by rw [Nat.sub_zero]; exact hr2)
  · have hres : reflectorScanStep a j = j := by
      unfold reflectorScanStep; rw [if_neg hg]
    rw [hres]
    exact ⟨by omega, Or.inl ⟨rfl, rfl, Or.inl (by simpa using hg)⟩⟩

/-- A reflector 50 m short of the sample junction, within the siren
detection radius of the approaching vehicle. -/
def scanReflector : Reflector := ⟨⟨-40, 0, 0⟩, false⟩

/-- An emergency vehicle heading east toward the sample junction, within
siren range of `scanReflector`. -/
def scanAmbulance : Ambulance :=
  { path := [⟨-200, 0, 0⟩, ⟨200, 0, 0⟩], currentPathIndex := 1,
    position := ⟨-50, 0, 0⟩, speed := 1/4, isDeactivating := false,
    fadeOutTimer := 0, hasFadedOut := false, hasModel := true }

/-- The sample junction with one reflector, already preempting, empty
chain. -/
def scanJunction : Junction :=
  { initialJunction with
    reflectors := [scanReflector]
    isAmbulanceApproaching := true
    isUnderNormalCycle := false }

/-- Witness for C5 exercising the firing branch: at the concrete state the
scan fires reflector 0 — it is appended to the (empty) chain and its
signal pulse starts — and the chain grew by the theorem's at-most-one
bound. -/
theorem reflector_scan_one_hop_witness :
    (reflectorScanStep scanAmbulance scanJunction).reflectorChain = [0] ∧
    (reflectorScanStep scanAmbulance scanJunction).reflectors =
      [triggerSignal scanReflector] ∧
    (reflectorScanStep scanAmbulance scanJunction).reflectorChain.length ≤
      scanJunction.reflectorChain.length + 1 :=
  ⟨by norm_num [reflectorScanStep, scanLoop, reflectorFireCond,
      canDetectAmbulance, isAmbulanceNear, lastChainedPos, triggerSignal,
      ambulanceMovingTowardsJunction, distSq, sgn, sirenDetectionRadius,
      reflectorDetectionChainRadius, junctionSize, scanAmbulance,
      scanJunction, scanReflector, initialJunction, initialTrafficLight,
      roadSurfaceY],
   by norm_num [reflectorScanStep, scanLoop, reflectorFireCond,
      canDetectAmbulance, isAmbulanceNear, lastChainedPos, triggerSignal,
      ambulanceMovingTowardsJunction, distSq, sgn, sirenDetectionRadius,
      reflectorDetectionChainRadius, junctionSize, scanAmbulance,
      scanJunction, scanReflector, initialJunction, initialTrafficLight,
      roadSurfaceY],
   (reflector_scan_one_hop scanAmbulance scanJunction).1⟩

/-! ### Normal-cycle timing (C6) -/

/-- Start offset, in seconds, of phase `i` within one cycle: the sum of
the durations of the phases before it.  `phaseStart 6` is the full cycle
length (22 s with the shipped configuration). -/
def phaseStart (i : ℕ) : ℚ :=
  ((List.range i).map durSec).sum

theorem durSec_zero : durSec 0 = 8 := by
  norm_num [durSec, JUNCTION_CYCLE_DEFINITION, trafficLightGreenDuration]

theorem phaseStart_six : phaseStart 6 = 22 := by
  norm_num [phaseStart, durSec, JUNCTION_CYCLE_DEFINITION, List.range_succ,
    trafficLightGreenDuration, trafficLightYellowDuration]

/-- Well-formedness of a junction's cycle state: normal cycling with the
phase index in range and the timer within the current phase's duration. -/
def CycleWF (j : Junction) : Prop :=
  j.isUnderNormalCycle = true ∧ j.currentPhaseIndex < 6 ∧
    0 < j.currentPhaseTimer ∧ j.currentPhaseTimer ≤ durSec j.currentPhaseIndex

/-- Elapsed time, in seconds, since the start of the current cycle. -/
def cyclePos (j : Junction) : ℚ :=
  phaseStart j.currentPhaseIndex + (durSec j.currentPhaseIndex - j.currentPhaseTimer)

theorem applyPhase_phaseIndex (j : Junction) :
    (applyJunctionPhaseState j).currentPhaseIndex = j.currentPhaseIndex := by
  unfold applyJunctionPhaseState
  rcases JUNCTION_CYCLE_DEFINITION.get? j.currentPhaseIndex with _ | ⟨p, d⟩
  · rfl
  · cases p <;> rfl

theorem applyPhase_phaseTimer (j : Junction) :
    (applyJunctionPhaseState j).currentPhaseTimer = j.currentPhaseTimer := by
  unfold applyJunctionPhaseState
  rcases JUNCTION_CYCLE_DEFINITION.get? j.currentPhaseIndex with _ | ⟨p, d⟩
  · rfl
  · cases p <;> rfl

theorem applyPhase_underNormal (j : Junction) :
    (applyJunctionPhaseState j).isUnderNormalCycle = j.isUnderNormalCycle := by
  unfold applyJunctionPhaseState
  rcases JUNCTION_CYCLE_DEFINITION.get? j.currentPhaseIndex with _ | ⟨p, d⟩
  · rfl
  · cases p <;> rfl

theorem cycleDef_length : JUNCTION_CYCLE_DEFINITION.length = 6 := rfl

/-- One valid tick (positive, not crossing the phase boundary except by
landing exactly on it) keeps the cycle well-formed and advances the cycle
position by exactly the tick size, wrapping by one cycle length when the
boundary of the last phase is hit. -/
theorem cycleStep_lemma (j : Junction) (dt : ℚ) (hWF : CycleWF j)
    (hdt : 0 < dt) (hle : dt ≤ j.currentPhaseTimer) :
    CycleWF (manageJunctionCycleStep j dt) ∧
    (cyclePos (manageJunctionCycleStep j dt) = cyclePos j + dt ∨
      cyclePos (manageJunctionCycleStep j dt) + phaseStart 6 = cyclePos j + dt) := by
  obtain ⟨hnorm, hlt6, htpos, htle⟩ := hWF
  unfold manageJunctionCycleStep
  rw [if_pos hnorm]
  by_cases hcross : j.currentPhaseTimer - dt ≤ 0
  · rw [if_pos hcross]
    have hdteq : dt = j.currentPhaseTimer := by linarith
    have hidx : ((applyJunctionPhaseState
        { j with currentPhaseIndex := (j.currentPhaseIndex + 1) % JUNCTION_CYCLE_DEFINITION.length,
                 currentPhaseTimer := durSec ((j.currentPhaseIndex + 1) % JUNCTION_CYCLE_DEFINITION.length) }).currentPhaseIndex)
        = (j.currentPhaseIndex + 1) % 6 := by
      rw [applyPhase_phaseIndex, cycleDef_length]
    have htim : ((applyJunctionPhaseState
        { j with currentPhaseIndex := (j.currentPhaseIndex + 1) % JUNCTION_CYCLE_DEFINITION.length,
                 currentPhaseTimer := durSec ((j.currentPhaseIndex + 1) % JUNCTION_CYCLE_DEFINITION.length) }).currentPhaseTimer)
        = durSec ((j.currentPhaseIndex + 1) % 6) := by
      rw [applyPhase_phaseTimer, cycleDef_length]
    have hnor : ((applyJunctionPhaseState
        { j with currentPhaseIndex := (j.currentPhaseIndex + 1) % JUNCTION_CYCLE_DEFINITION.length,
                 currentPhaseTimer := durSec ((j.currentPhaseIndex + 1) % JUNCTION_CYCLE_DEFINITION.length) }).isUnderNormalCycle)
        = true := by
      rw [applyPhase_underNormal]; exact hnorm
    constructor
    · refine ⟨hnor, ?_, ?_, ?_⟩
      · rw [hidx]; exact Nat.mod_lt _ (by norm_num)
      · rw [htim]
        interval_cases h : j.currentPhaseIndex <;>
          norm_num [durSec, JUNCTION_CYCLE_DEFINITION, trafficLightGreenDuration,
            trafficLightYellowDuration]
      · rw [htim, hidx]
    · unfold cyclePos
      rw [hidx, htim]
      subst hdteq
      have hring : ∀ s d t : ℚ, s + d = s + (d - t) + t := by intro s d t; ring
      interval_cases h : j.currentPhaseIndex
      · left
        norm_num [phaseStart, durSec, JUNCTION_CYCLE_DEFINITION, List.range_succ,
          trafficLightGreenDuration, trafficLightYellowDuration]
      · left
        norm_num [phaseStart, durSec, JUNCTION_CYCLE_DEFINITION, List.range_succ,
          trafficLightGreenDuration, trafficLightYellowDuration]
        linarith [hring 8 2 j.currentPhaseTimer]
      · left
        norm_num [phaseStart, durSec, JUNCTION_CYCLE_DEFINITION, List.range_succ,
          trafficLightGreenDuration, trafficLightYellowDuration]
        linarith [hring 10 1 j.currentPhaseTimer]
      · left
        norm_num [phaseStart, durSec, JUNCTION_CYCLE_DEFINITION, List.range_succ,
          trafficLightGreenDuration, trafficLightYellowDuration]
        linarith [hring 11 8 j.currentPhaseTimer]
      · left
        norm_num [phaseStart, durSec, JUNCTION_CYCLE_DEFINITION, List.range_succ,
          trafficLightGreenDuration, trafficLightYellowDuration]
        linarith [hring 19 2 j.currentPhaseTimer]
      · right
        norm_num [phaseStart, durSec, JUNCTION_CYCLE_DEFINITION, List.range_succ,
          trafficLightGreenDuration, trafficLightYellowDuration]
        linarith [hring 21 1 j.currentPhaseTimer]
  · rw [if_neg hcross]
    refine ⟨⟨hnorm, hlt6, by simp only; linarith, by simp only; linarith⟩, ?_⟩
    left
    unfold cyclePos
    simp only
    ring

/-- A tick sequence is valid from a junction state when every tick is
positive and no tick overshoots the running phase timer (boundaries may be
hit exactly). -/
def validTicks : Junction → List ℚ → Bool
  | _, [] => true
  | j, dt :: rest =>
    decide (0 < dt) && decide (dt ≤ j.currentPhaseTimer) &&
      validTicks (manageJunctionCycleStep j dt) rest

/-- Folding a valid tick sequence keeps the cycle well-formed and advances
the cycle position by the total elapsed time, up to a whole number of
cycle lengths. -/
theorem cycleFold_lemma :
    ∀ (l : List ℚ) (j : Junction), CycleWF j → validTicks j l = true →
      ∃ k : ℕ, CycleWF (l.foldl manageJunctionCycleStep j) ∧
        cyclePos (l.foldl manageJunctionCycleStep j) + k * phaseStart 6 =
          cyclePos j + l.sum := by
  intro l
  induction l with
  | nil =>
    intro j hWF _
    exact ⟨0, hWF, by simp⟩
  | cons dt rest ih =>
    intro j hWF hv
    unfold validTicks at hv
    simp only [Bool.and_eq_true, decide_eq_true_eq] at hv
    obtain ⟨⟨hdt, hle⟩, hv⟩ := hv
    obtain ⟨hWF1, hpos1⟩ := cycleStep_lemma j dt hWF hdt hle
    obtain ⟨k, hWFf, hposf⟩ := ih (manageJunctionCycleStep j dt) hWF1 hv
    rcases hpos1 with heq | heq
    · refine ⟨k, by simpa using hWFf, ?_⟩
      simp only [List.foldl_cons, List.sum_cons] at *
      linarith
    · refine ⟨k + 1, by simpa using hWFf, ?_⟩
      simp only [List.foldl_cons, List.sum_cons] at *
      push_cast
      linarith

/-- A well-formed cycle position lies within one cycle length. -/
theorem cyclePos_range (j : Junction) (h : CycleWF j) :
    0 ≤ cyclePos j ∧ cyclePos j < phaseStart 6 := by
  obtain ⟨-, hlt6, htpos, htle⟩ := h
  unfold cyclePos
  interval_cases hk : j.currentPhaseIndex <;>
    constructor <;>
    · norm_num [phaseStart, durSec, JUNCTION_CYCLE_DEFINITION, List.range_succ,
        trafficLightGreenDuration, trafficLightYellowDuration] at htle ⊢
      linarith

/-- The only well-formed state at cycle position zero is the start of
phase 0 with a full timer. -/
theorem cyclePos_zero (j : Junction) (h : CycleWF j) (h0 : cyclePos j = 0) :
    j.currentPhaseIndex = 0 ∧ j.currentPhaseTimer = durSec 0 := by
  obtain ⟨-, hlt6, htpos, htle⟩ := h
  unfold cyclePos at h0
  interval_cases hk : j.currentPhaseIndex <;>
    norm_num [phaseStart, durSec, JUNCTION_CYCLE_DEFINITION, List.range_succ,
      trafficLightGreenDuration, trafficLightYellowDuration] at h0 htle ⊢ <;>
    linarith

/-- C6 (amended): starting from phase 0 with a full timer under normal
cycling, any sequence of positive ticks that never overshoots a phase
boundary (each tick is at most the remaining phase time) and whose elapsed
times sum to N full cycle lengths brings the junction back exactly to
phase index 0 with `remainingTime` equal to phase 0's full duration.
(The original claim, for arbitrary positive tick sizes, fails: the code
drops the overshoot when a tick crosses a phase boundary; see the
counterexample.) -/
theorem cycle_returns_after_full_cycles (j : Junction) (l : List ℚ) (N : ℕ)
    (hnorm : j.isUnderNormalCycle = true)
    (hidx : j.currentPhaseIndex = 0)
    (htimer : j.currentPhaseTimer = durSec 0)
    (hvalid : validTicks j l = true)
    (hsum : l.sum = N * phaseStart 6) :
    (l.foldl manageJunctionCycleStep j).currentPhaseIndex = 0 ∧
    (l.foldl manageJunctionCycleStep j).currentPhaseTimer = durSec 0 ∧
    durSec 0 = 8 := by
  have hWF : CycleWF j := by
    refine ⟨hnorm, by omega, ?_, by rw [htimer, hidx]⟩
    rw [htimer, durSec_zero]; norm_num
  have hpos0 : cyclePos j = 0 := by
    unfold cyclePos
    rw [hidx, htimer]
    simp [phaseStart]
  obtain ⟨k, hWFf, hposf⟩ := cycleFold_lemma l j hWF hvalid
  rw [hpos0, hsum] at hposf
  obtain ⟨hge, hlt⟩ := cyclePos_range _ hWFf
  have h22 : phaseStart 6 = 22 := phaseStart_six
  rw [h22] at hposf hlt
  have hkN : (k : ℚ) = (N : ℚ) := by
    by_cases hcmp : k ≤ N
    · rcases Nat.eq_or_lt_of_le hcmp with heq | hstrict
      · exact_mod_cast congrArg (Nat.cast : ℕ → ℚ) heq
      · exfalso
        have : (k : ℚ) + 1 ≤ (N : ℚ) := by exact_mod_cast hstrict
        nlinarith
    · exfalso
      have : (N : ℚ) + 1 ≤ (k : ℚ) := by
        have : N < k := by omega
        exact_mod_cast this
      nlinarith
  have hfinal : cyclePos (l.foldl manageJunctionCycleStep j) = 0 := by
    rw [hkN] at hposf; linarith
  obtain ⟨hi, ht⟩ := cyclePos_zero _ hWFf hfinal
  exact ⟨hi, ht, durSec_zero⟩

/-- C6 counterexample: the positive tick sizes 8 s and 14 s sum to exactly
one full 22-second cycle, yet from the initial state (phase 0, timer 8)
the junction ends at phase index 2 with a 1-second timer — not back at
phase 0 — because the code discards the 12-second overshoot of the second
tick when it crosses a phase boundary.  So the claim fails for arbitrary
positive tick sequences. -/
theorem cycle_sum_counterexample :
    ([(8 : ℚ), 14].sum = 1 * phaseStart 6) ∧
    initialJunction.isUnderNormalCycle = true ∧
    initialJunction.currentPhaseIndex = 0 ∧
    initialJunction.currentPhaseTimer = durSec 0 ∧
    (([(8 : ℚ), 14]).foldl manageJunctionCycleStep initialJunction).currentPhaseIndex
      = 2 ∧
    (([(8 : ℚ), 14]).foldl manageJunctionCycleStep initialJunction).currentPhaseTimer
      = 1 ∧
    (([(8 : ℚ), 14]).foldl manageJunctionCycleStep initialJunction).currentPhaseIndex
      ≠ 0 := by
  refine ⟨by norm_num [phaseStart_six], rfl, rfl, by norm_num [durSec_zero, initialJunction], ?_⟩
  norm_num [manageJunctionCycleStep, applyJunctionPhaseState, setLightState,
    initialJunction, initialTrafficLight, durSec, JUNCTION_CYCLE_DEFINITION,
    trafficLightGreenDuration, trafficLightYellowDuration, cycleDef_length,
    offLamp, onLamp]

/-- Witness for the amended C6 at one concrete full cycle: the six ticks
8, 2, 1, 8, 2, 1 each land exactly on a phase boundary, sum to one cycle,
and return the initial junction to phase 0 with a full 8-second timer. -/
theorem cycle_returns_after_full_cycles_witness :
    (([(8 : ℚ), 2, 1, 8, 2, 1]).foldl manageJunctionCycleStep
        initialJunction).currentPhaseIndex = 0 ∧
    (([(8 : ℚ), 2, 1, 8, 2, 1]).foldl manageJunctionCycleStep
        initialJunction).currentPhaseTimer = durSec 0 ∧
    durSec 0 = 8 :=
  cycle_returns_after_full_cycles initialJunction [8, 2, 1, 8, 2, 1] 1 rfl rfl
    (by norm_num [durSec_zero, initialJunction])
    (by norm_num [validTicks, manageJunctionCycleStep, applyJunctionPhaseState,
      setLightState, initialJunction, initialTrafficLight, durSec,
      JUNCTION_CYCLE_DEFINITION, trafficLightGreenDuration,
      trafficLightYellowDuration, cycleDef_length, offLamp, onLamp])
    (by norm_num [phaseStart_six])

/-! ### Procedural cars, from `js/ProceduralCar.js` -/

/-- Sign of a rational as a rational, for the source's
`Math.sign(...)`-weighted products. -/
def sgnQ (q : ℚ) : ℚ := ((sgn q : ℤ) : ℚ)

/-- One ordinary vehicle.  `initialZ` is its home lane, `targetZ` the lane
interpolation target (evasion), `speed` the signed nominal speed,
`currentSpeed` the actual one. -/
structure Car where
  posX : ℚ
  posZ : ℚ
  length : ℚ
  carWidth : ℚ
  initialZ : ℚ
  targetZ : ℚ
  speed : ℚ
  currentSpeed : ℚ
  isEvading : Bool
  isStoppedForLight : Bool
  deriving DecidableEq, Repr

/-- `ProceduralCar.update`, lines 108–110: move along X unless stopped
(evading overrides the stop). -/
def carUpdateMove (car : Car) (deltaTime : ℚ) : Car :=
  if !car.isStoppedForLight || car.isEvading then
    { car with posX := car.posX + car.currentSpeed * deltaTime * 60 }
  else car

/-- Lines 112–118: wrap the X position at the road extent. -/
def carUpdateWrap (car : Car) : Car :=
  let roadExtentX :=
    ((numJunctions : ℚ) * junctionSize + ((numJunctions : ℚ) + 1) * roadLength) / 2 +
      car.length * 2
  if car.currentSpeed > 0 ∧ car.posX > roadExtentX then
    { car with posX := -roadExtentX }
  else if car.currentSpeed < 0 ∧ car.posX < -roadExtentX then
    { car with posX := roadExtentX }
  else car

/-- Lines 120–129: interpolate Z toward `targetZ` (the exponential
`THREE.MathUtils.damp` is passed in as `dampF` since it is
transcendental), snapping and retargeting the home lane when close. -/
def carUpdateLateral (car : Car) (deltaTime : ℚ) (dampF : ℚ → ℚ → ℚ → ℚ) : Car :=
  if |car.posZ - car.targetZ| > 1/100 then
    { car with posZ := dampF car.posZ car.targetZ deltaTime }
  else
    let car := { car with posZ := car.targetZ }
    if !car.isEvading && decide (car.posZ ≠ car.initialZ) then
      { car with targetZ := car.initialZ }
    else car

/-- Lines 131–134: restore nominal speed when neither stopped nor
evading. -/
def carUpdateSpeedRestore (car : Car) : Car :=
  if !car.isStoppedForLight && !car.isEvading &&
      decide ((|car.currentSpeed| : ℚ) < |car.speed|) then
    { car with currentSpeed := car.speed }
  else car

/-- Lines 135–138: force zero speed while stopped and not evading. -/
def carUpdateSpeedClamp (car : Car) : Car :=
  if car.isStoppedForLight && !car.isEvading then
    { car with currentSpeed := 0 }
  else car

/-- `ProceduralCar.update(deltaTime)` (lines 107–139), as the composition
of its stages in source order. -/
def carUpdate (car : Car) (deltaTime : ℚ) (dampF : ℚ → ℚ → ℚ → ℚ) : Car :=
  carUpdateSpeedClamp
    (carUpdateSpeedRestore
      (carUpdateLateral (carUpdateWrap (carUpdateMove car deltaTime)) deltaTime dampF))

/-- `ProceduralCar.checkAndHandleTrafficLight` (lines 141–186): the missing
junction/light branch clears the stop; the creep override (ambulance very
close, car stopped or slowed, and evading) overrides the stop with 0.3×
speed; otherwise red/yellow within the stop window stops a non-evading
car, green (or the light no longer red/yellow, or the junction passed)
clears the stop. -/
def checkAndHandleTrafficLight (car : Car) (junctionData : Option Junction)
    (trafficLight : Option TrafficLight) (ambulanceIsVeryCloseAndNeedsWay : Bool) :
    Car :=
  match junctionData, trafficLight with
  | some jd, some _tl =>
    let tl := _tl
    let distToJunctionCenterX := (jd.center.x - car.posX) * sgnQ car.speed
    if ambulanceIsVeryCloseAndNeedsWay &&
        (car.isStoppedForLight || decide (car.currentSpeed < (|car.speed| : ℚ))) &&
        car.isEvading then
      { car with isStoppedForLight := false, currentSpeed := car.speed * (3/10) }
    else if distToJunctionCenterX > 0 ∧
        distToJunctionCenterX < carDetectionDistanceToJunction then
      let lightState := tl.currentState
      let effectiveStopDist := carStopDistanceToJunction + car.length / 2
      if (lightState = RED ∨ lightState = YELLOW) ∧
          distToJunctionCenterX < effectiveStopDist ∧
          distToJunctionCenterX > -car.length then
        if !car.isEvading then
          { car with isStoppedForLight := true, currentSpeed := 0 }
        else car
      else if lightState = GREEN then
        let car := { car with isStoppedForLight := false }
        if !car.isEvading then { car with currentSpeed := car.speed } else car
      else if car.isStoppedForLight ∧ ¬(lightState = RED ∨ lightState = YELLOW) then
        let car := { car with isStoppedForLight := false }
        if !car.isEvading then { car with currentSpeed := car.speed } else car
      else car
    else if distToJunctionCenterX ≤ 0 then
      { car with isStoppedForLight := false }
    else car
  | _, _ =>
    let car :=
      if car.isStoppedForLight then { car with isStoppedForLight := false } else car
    if !car.isEvading then { car with currentSpeed := car.speed } else car

/-- `ProceduralCar.startEvade(ambulanceTargetLaneZ)` (lines 188–211). -/
def startEvade (car : Car) (ambulanceTargetLaneZ : ℚ) : Car :=
  if car.isEvading ∧ car.targetZ ≠ car.initialZ then car
  else
    let car := { car with isEvading := true }
    let carOriginalLaneZ := car.initialZ
    let roadEdgePositive := roadWidth / 2 - car.carWidth / 2 - 1/5
    let roadEdgeNegative := -(roadWidth / 2) + car.carWidth / 2 + 1/5
    if |car.posZ - ambulanceTargetLaneZ| < laneWidth * (4/5) then
      if ambulanceTargetLaneZ ≤ carOriginalLaneZ then
        let t := carOriginalLaneZ + carEvadeShiftZ
        { car with targetZ := if t > roadEdgePositive then roadEdgePositive else t }
      else
        let t := carOriginalLaneZ - carEvadeShiftZ
        { car with targetZ := if t < roadEdgeNegative then roadEdgeNegative else t }
    else
      { car with targetZ := car.initialZ, isEvading := false }

/-- `ProceduralCar.stopEvade()` (lines 213–218). -/
def stopEvade (car : Car) : Car :=
  if ¬car.isEvading ∧ |car.posZ - car.initialZ| < 1/10 then car
  else { car with isEvading := false, targetZ := car.initialZ }

/-! ### Per-car tick of `Simulation.updateCarLogic` (lines 530–607) -/

/-- Line 531: the car logic treats the emergency vehicle as active only
when it exists, has a model, is still on its path, and is neither fading
out nor fully faded. -/
def carLogicAmbulanceActive (amb : Option Ambulance) : Bool :=
  match amb with
  | none => false
  | some a =>
    a.hasModel && decide (a.currentPathIndex < a.path.length) &&
      !a.isDeactivating && !a.hasFadedOut

/-- Lines 549–564: the first junction ahead (in travel direction) within
the detection window, paired with the light the car faces (index 3
east-bound, index 2 west-bound); the loop breaks at the first junction in
the window. -/
def findRelevantJunction (car : Car) : List Junction → Option (Junction × TrafficLight)
  | [] => none
  | jd :: rest =>
    let distToJunctionX := (jd.center.x - car.posX) * sgnQ car.speed
    if distToJunctionX > -car.length ∧
        distToJunctionX < carDetectionDistanceToJunction + 5 then
      some (jd, if sgn car.speed > 0 then jd.tl3 else jd.tl2)
    else findRelevantJunction car rest

/-- Lines 585–605: the post-movement evasion interaction.  With the
emergency vehicle active and the car ahead/overlapping within the evasion
window, the car starts evading; an evading, stopped car creeps at 0.25×
speed when the vehicle is very close.  Otherwise (vehicle far, inactive or
absent) evasion ends and free cars regain nominal speed. -/
def carAmbulanceInteraction (amb : Option Ambulance)
    (ambulanceActive veryClose : Bool) (ambulanceLaneZ : ℚ) (car : Car) : Car :=
  match amb with
  | some a =>
    if ambulanceActive then
      let dX := car.posX - a.position.x
      if ((decide (car.speed > 0) && decide (dX > -(car.length * (3/2)))) ||
          (decide (car.speed < 0) && decide (dX < car.length * (3/2)))) &&
          decide ((|dX| : ℚ) < carEvadeDistance) then
        let car := if !car.isEvading then startEvade car ambulanceLaneZ else car
        if car.isEvading && car.isStoppedForLight && veryClose then
          { car with isStoppedForLight := false, currentSpeed := car.speed * (1/4) }
        else car
      else
        if car.isEvading then stopEvade car else car
    else
      let car := if car.isEvading then stopEvade car else car
      if !car.isStoppedForLight && decide ((|car.currentSpeed| : ℚ) < |car.speed|) then
        { car with currentSpeed := car.speed }
      else car
  | none =>
    let car := if car.isEvading then stopEvade car else car
    if !car.isStoppedForLight && decide ((|car.currentSpeed| : ℚ) < |car.speed|) then
      { car with currentSpeed := car.speed }
    else car

/-- The whole per-car body of `updateCarLogic` for one tick: light
handling, movement, and emergency-vehicle evasion/creep interaction. -/
def updateCarLogicPerCar (amb : Option Ambulance) (junctions : List Junction)
    (car : Car) (deltaTime : ℚ) (dampF : ℚ → ℚ → ℚ → ℚ) : Car :=
  let ambulanceActive := carLogicAmbulanceActive amb
  let ambulanceLaneZ : ℚ :=
    match amb with
    | some a =>
      if ambulanceActive then
        match a.path.get? a.currentPathIndex with
        | some p => p.z
        | none => ambulanceLaneOffsetZ
      else ambulanceLaneOffsetZ
    | none => ambulanceLaneOffsetZ
  let veryClose : Bool :=
    match amb with
    | some a =>
      ambulanceActive &&
        (decide (car.posX - a.position.x > -(carEvadeDistance / 2)) &&
         decide (car.posX - a.position.x < car.length * 2) &&
         decide ((|car.posZ - a.position.z| : ℚ) < laneWidth * (3/2)))
    | none => false
  let car :=
    match findRelevantJunction car junctions with
    | some (jd, tl) => checkAndHandleTrafficLight car (some jd) (some tl) veryClose
    | none => { car with isStoppedForLight := false }
  let car := carUpdate car deltaTime dampF
  carAmbulanceInteraction amb ambulanceActive veryClose ambulanceLaneZ car

/-! ### Car invariants (C7, C8) -/

theorem carUpdateMove_flags (car : Car) (dt : ℚ) :
    (carUpdateMove car dt).isStoppedForLight = car.isStoppedForLight ∧
    (carUpdateMove car dt).isEvading = car.isEvading ∧
    (carUpdateMove car dt).currentSpeed = car.currentSpeed := by
  unfold carUpdateMove
  split <;> exact ⟨rfl, rfl, rfl⟩

theorem carUpdateWrap_flags (car : Car) :
    (carUpdateWrap car).isStoppedForLight = car.isStoppedForLight ∧
    (carUpdateWrap car).isEvading = car.isEvading ∧
    (carUpdateWrap car).currentSpeed = car.currentSpeed := by
  unfold carUpdateWrap
  dsimp only
  split
  · exact ⟨rfl, rfl, rfl⟩
  · split <;> exact ⟨rfl, rfl, rfl⟩

theorem carUpdateLateral_flags (car : Car) (dt : ℚ) (dampF : ℚ → ℚ → ℚ → ℚ) :
    (carUpdateLateral car dt dampF).isStoppedForLight = car.isStoppedForLight ∧
    (carUpdateLateral car dt dampF).isEvading = car.isEvading ∧
    (carUpdateLateral car dt dampF).currentSpeed = car.currentSpeed := by
  unfold carUpdateLateral
  split
  · exact ⟨rfl, rfl, rfl⟩
  · dsimp only
    split <;> exact ⟨rfl, rfl, rfl⟩

theorem carUpdateSpeedRestore_flags (car : Car) :
    (carUpdateSpeedRestore car).isStoppedForLight = car.isStoppedForLight ∧
    (carUpdateSpeedRestore car).isEvading = car.isEvading := by
  unfold carUpdateSpeedRestore
  split <;> exact ⟨rfl, rfl⟩

theorem carUpdateSpeedRestore_inv (car : Car)
    (h : car.isStoppedForLight = true → car.currentSpeed = 0) :
    (carUpdateSpeedRestore car).isStoppedForLight = true →
      (carUpdateSpeedRestore car).currentSpeed = 0 := by
  unfold carUpdateSpeedRestore
  split <;> simp_all

theorem carUpdateSpeedClamp_flags (car : Car) :
    (carUpdateSpeedClamp car).isStoppedForLight = car.isStoppedForLight ∧
    (carUpdateSpeedClamp car).isEvading = car.isEvading := by
  unfold carUpdateSpeedClamp
  split <;> exact ⟨rfl, rfl⟩

theorem carUpdateSpeedClamp_inv (car : Car)
    (h : car.isStoppedForLight = true → car.currentSpeed = 0) :
    (carUpdateSpeedClamp car).isStoppedForLight = true →
      (carUpdateSpeedClamp car).currentSpeed = 0 := by
  unfold carUpdateSpeedClamp
  split <;> simp_all

theorem carUpdate_isStoppedForLight (car : Car) (dt : ℚ) (dampF : ℚ → ℚ → ℚ → ℚ) :
    (carUpdate car dt dampF).isStoppedForLight = car.isStoppedForLight := by
  unfold carUpdate
  rw [(carUpdateSpeedClamp_flags _).1, (carUpdateSpeedRestore_flags _).1,
    (carUpdateLateral_flags _ _ _).1, (carUpdateWrap_flags _).1,
    (carUpdateMove_flags _ _).1]

theorem carUpdate_isEvading (car : Car) (dt : ℚ) (dampF : ℚ → ℚ → ℚ → ℚ) :
    (carUpdate car dt dampF).isEvading = car.isEvading := by
  unfold carUpdate
  rw [(carUpdateSpeedClamp_flags _).2, (carUpdateSpeedRestore_flags _).2,
    (carUpdateLateral_flags _ _ _).2.1, (carUpdateWrap_flags _).2.1,
    (carUpdateMove_flags _ _).2.1]

theorem carUpdate_inv (car : Car) (dt : ℚ) (dampF : ℚ → ℚ → ℚ → ℚ)
    (h : car.isStoppedForLight = true → car.currentSpeed = 0) :
    (carUpdate car dt dampF).isStoppedForLight = true →
      (carUpdate car dt dampF).currentSpeed = 0 := by
  unfold carUpdate
  apply carUpdateSpeedClamp_inv
  apply carUpdateSpeedRestore_inv
  intro hst
  rw [(carUpdateLateral_flags _ _ _).2.2, (carUpdateWrap_flags _).2.2,
    (carUpdateMove_flags _ _).2.2]
  apply h
  rw [(carUpdateLateral_flags _ _ _).1, (carUpdateWrap_flags _).1,
    (carUpdateMove_flags _ _).1] at hst
  exact hst

theorem checkAndHandle_isEvading (car : Car) (jd : Option Junction)
    (tl : Option TrafficLight) (vc : Bool) :
    (checkAndHandleTrafficLight car jd tl vc).isEvading = car.isEvading := by
  unfold checkAndHandleTrafficLight
  rcases jd with _ | jd <;> rcases tl with _ | tl
  all_goals dsimp only
  all_goals
    repeat' split
  all_goals rfl

theorem checkAndHandle_inv (car : Car) (jd : Option Junction)
    (tl : Option TrafficLight) (vc : Bool)
    (h : car.isStoppedForLight = true → car.currentSpeed = 0) :
    (checkAndHandleTrafficLight car jd tl vc).isStoppedForLight = true →
      (checkAndHandleTrafficLight car jd tl vc).currentSpeed = 0 := by
  unfold checkAndHandleTrafficLight
  rcases jd with _ | jd <;> rcases tl with _ | tl
  all_goals dsimp only
  all_goals
    repeat' split
  all_goals simp_all

theorem startEvade_isStoppedForLight (car : Car) (z : ℚ) :
    (startEvade car z).isStoppedForLight = car.isStoppedForLight := by
  unfold startEvade
  dsimp only
  repeat' split
  all_goals rfl

theorem startEvade_currentSpeed (car : Car) (z : ℚ) :
    (startEvade car z).currentSpeed = car.currentSpeed := by
  unfold startEvade
  dsimp only
  repeat' split
  all_goals rfl

theorem stopEvade_isStoppedForLight (car : Car) :
    (stopEvade car).isStoppedForLight = car.isStoppedForLight := by
  unfold stopEvade
  split
  all_goals rfl

theorem stopEvade_currentSpeed (car : Car) :
    (stopEvade car).currentSpeed = car.currentSpeed := by
  unfold stopEvade
  split
  all_goals rfl

theorem stopEvade_isEvading (car : Car) :
    (stopEvade car).isEvading = false := by
  unfold stopEvade
  split
  · simp_all
  · rfl

theorem carAmbInteraction_inv (amb : Option Ambulance)
    (act vc : Bool) (lz : ℚ) (car : Car)
    (h : car.isStoppedForLight = true → car.currentSpeed = 0) :
    (carAmbulanceInteraction amb act vc lz car).isStoppedForLight = true →
      (carAmbulanceInteraction amb act vc lz car).currentSpeed = 0 := by
  unfold carAmbulanceInteraction
  rcases amb with _ | a
  all_goals dsimp only
  all_goals
    repeat' split
  all_goals
    simp_all [startEvade_isStoppedForLight, startEvade_currentSpeed,
      stopEvade_isStoppedForLight, stopEvade_currentSpeed]

/-- C8: the per-car tick preserves the invariant "a car stopped for a
light has zero speed": at the end of every tick no car has both
`isStoppedForLight = true` and nonzero `currentSpeed` (the creep override
clears the stop flag in the same assignment, so even during creep the
pair never occurs). -/
theorem stopped_car_has_zero_speed (amb : Option Ambulance)
    (junctions : List Junction) (car : Car) (dt : ℚ) (dampF : ℚ → ℚ → ℚ → ℚ)
    (h : car.isStoppedForLight = true → car.currentSpeed = 0) :
    (updateCarLogicPerCar amb junctions car dt dampF).isStoppedForLight = true →
      (updateCarLogicPerCar amb junctions car dt dampF).currentSpeed = 0 := by
  unfold updateCarLogicPerCar
  rcases hrel : findRelevantJunction car junctions with _ | ⟨jd, tl⟩ <;>
    simp only [hrel]
  · exact carAmbInteraction_inv _ _ _ _ _
      (carUpdate_inv _ _ _ (by intro hst; simp at hst))
  · exact carAmbInteraction_inv _ _ _ _ _
      (carUpdate_inv _ _ _ (checkAndHandle_inv _ _ _ _ h))

/-- A free-rolling car in its home lane. -/
def sampleCar : Car :=
  { posX := 0, posZ := 7/4, length := 14/5, carWidth := 13/10,
    initialZ := 7/4, targetZ := 7/4, speed := 1/10, currentSpeed := 1/10,
    isEvading := false, isStoppedForLight := false }

/-- A constant stand-in for the exponential damping interpolator. -/
def dampConst : ℚ → ℚ → ℚ → ℚ := fun z _ _ => z

/-- An eastbound car 8 m short of the sample junction's center, inside the
red-light stop window. -/
def stopTestCar : Car :=
  { posX := -8, posZ := 7/4, length := 14/5, carWidth := 13/10,
    initialZ := 7/4, targetZ := 7/4, speed := 1/10, currentSpeed := 1/10,
    isEvading := false, isStoppedForLight := false }

/-- Witness for C8 at a concrete red light: the car ends the tick stopped,
and its speed is indeed zero. -/
theorem stopped_car_has_zero_speed_witness :
    (updateCarLogicPerCar none [initialJunction] stopTestCar 1
        dampConst).isStoppedForLight = true ∧
    (updateCarLogicPerCar none [initialJunction] stopTestCar 1
        dampConst).currentSpeed = 0 := by
  have hstop : (updateCarLogicPerCar none [initialJunction] stopTestCar 1
      dampConst).isStoppedForLight = true := by
    norm_num [updateCarLogicPerCar, carLogicAmbulanceActive,
      findRelevantJunction, checkAndHandleTrafficLight, carUpdate,
      carUpdateMove, carUpdateWrap, carUpdateLateral, carUpdateSpeedRestore,
      carUpdateSpeedClamp, carAmbulanceInteraction, stopEvade, sgn, sgnQ,
      dampConst, stopTestCar, initialJunction, initialTrafficLight,
      numJunctions, junctionSize, roadLength, roadSurfaceY, carEvadeDistance,
      laneWidth, ambulanceLaneOffsetZ, carDetectionDistanceToJunction,
      carStopDistanceToJunction, abs, max_def]
  exact ⟨hstop, stopped_car_has_zero_speed none [initialJunction] stopTestCar 1
    dampConst (fun hh => absurd hh (by decide)) hstop⟩

/-- With the activity flag false, the emergency-vehicle interaction always
ends any evasion. -/
theorem carAmbInteraction_inactive_evading (amb : Option Ambulance)
    (vc : Bool) (lz : ℚ) (car : Car) :
    (carAmbulanceInteraction amb false vc lz car).isEvading = false := by
  unfold carAmbulanceInteraction
  rcases amb with _ | a
  all_goals
    dsimp only
    repeat' split
  all_goals simp_all [stopEvade_isEvading]

/-- C7 (amended): as soon as the emergency vehicle starts deactivating
(fade-out begins), the per-tick car logic's activity check is false and
any evading car stops evading in the same tick — the vehicle is treated
as absent for evasion from the start of the fade window, not only after
the fade completes.  (The original claim — that cars still treat it as
active throughout the fade — fails; see the counterexample.) -/
theorem fading_ambulance_treated_absent (a : Ambulance)
    (junctions : List Junction) (car : Car) (dt : ℚ)
    (dampF : ℚ → ℚ → ℚ → ℚ) (h : a.isDeactivating = true) :
    carLogicAmbulanceActive (some a) = false ∧
    (updateCarLogicPerCar (some a) junctions car dt dampF).isEvading = false := by
  have hact : carLogicAmbulanceActive (some a) = false := by
    unfold carLogicAmbulanceActive
    simp [h]
  refine ⟨hact, ?_⟩
  unfold updateCarLogicPerCar
  simp only [hact]
  exact carAmbInteraction_inactive_evading _ _ _ _

/-- An emergency vehicle mid-fade: it has reached the end of its path,
deactivation has begun, and the 2-second fade is only half elapsed. -/
def fadingAmbulance : Ambulance :=
  { path := [⟨-100, 1/4, -7/4⟩, ⟨200, 1/4, -7/4⟩], currentPathIndex := 2,
    position := ⟨200, 1/4, -7/4⟩, speed := 1/4, isDeactivating := true,
    fadeOutTimer := 1, hasFadedOut := false, hasModel := true }

/-- A car currently evading near the fading vehicle. -/
def evadingCar : Car :=
  { posX := 190, posZ := 7/4, length := 14/5, carWidth := 13/10,
    initialZ := 7/4, targetZ := 17/4, speed := 1/10, currentSpeed := 1/10,
    isEvading := true, isStoppedForLight := false }

/-- C7 counterexample: during the fade-out window (deactivating, fade
timer 1 s of 2 s, not yet faded out) the car logic's activity check is
already false, and a concrete evading car stops evading on that very tick
— the code treats the vehicle as absent during the window, contradicting
the claim that it stays "active" for evasion until the fade completes. -/
theorem fading_window_counterexample :
    fadingAmbulance.isDeactivating = true ∧
    fadingAmbulance.hasFadedOut = false ∧
    fadingAmbulance.fadeOutTimer < ambulanceFadeOutDuration ∧
    fadingAmbulance.path.length ≤ fadingAmbulance.currentPathIndex ∧
    carLogicAmbulanceActive (some fadingAmbulance) = false ∧
    evadingCar.isEvading = true ∧
    (updateCarLogicPerCar (some fadingAmbulance) [] evadingCar 1 dampConst).isEvading
      = false := by
  refine ⟨rfl, rfl, by norm_num [fadingAmbulance, ambulanceFadeOutDuration],
    by decide, rfl, rfl, ?_⟩
  norm_num [updateCarLogicPerCar, carLogicAmbulanceActive, findRelevantJunction,
    checkAndHandleTrafficLight, carUpdate, carUpdateMove, carUpdateWrap,
    carUpdateLateral, carUpdateSpeedRestore, carUpdateSpeedClamp,
    carAmbulanceInteraction, stopEvade, startEvade, sgn, sgnQ, dampConst,
    fadingAmbulance, evadingCar, numJunctions, junctionSize, roadLength,
    carEvadeDistance, laneWidth, ambulanceLaneOffsetZ,
    carDetectionDistanceToJunction, carStopDistanceToJunction, abs, max_def]

/-- Witness for the amended C7 at the concrete mid-fade state. -/
theorem fading_ambulance_treated_absent_witness :
    carLogicAmbulanceActive (some fadingAmbulance) = false ∧
    (updateCarLogicPerCar (some fadingAmbulance) [] sampleCar 1 dampConst).isEvading
      = false :=
  fading_ambulance_treated_absent fadingAmbulance [] sampleCar 1 dampConst rfl

/-! ### Road lookups, from `js/Road.js` (shipped unnamed in this
snapshot) -/

/-- Static road-layout state: the ordered junction center points and the
road surface height. -/
structure Road where
  junctionCenters : List Vec3
  surfaceY : ℚ
  deriving DecidableEq, Repr

/-- The four approach directions accepted by `getReflectorPositions`. -/
inductive ApproachDir where
  | west
  | east
  | south
  | north
  deriving DecidableEq, Repr

/-- `Road.getJunctionCenter(junctionIndex)`: the stored center for an
in-range index, `null` (with a logged warning) otherwise; the index is an
integer so negative values are also out of range. -/
def getJunctionCenter (road : Road) (junctionIndex : ℤ) : Option Vec3 :=
  if 0 ≤ junctionIndex ∧ junctionIndex < (road.junctionCenters.length : ℤ) then
    road.junctionCenters.get? junctionIndex.toNat
  else
    none

/-- `Road.getReflectorPositions(junctionIndex, approachDirection)`
(lines 241–315): an empty list (with a logged warning) for an out-of-range
index or a missing center, otherwise `floor(roadLength/reflectorSpacing)`
evenly spaced points along the approach segment, reversed for the west and
south approaches so that activation follows the vehicle's travel
direction. -/
def getReflectorPositions (road : Road) (junctionIndex : ℤ)
    (approachDirection : ApproachDir) : List Vec3 :=
  if junctionIndex < 0 ∨ (road.junctionCenters.length : ℤ) ≤ junctionIndex then
    []
  else
    match road.junctionCenters.get? junctionIndex.toNat with
    | none => []
    | some junctionCenter =>
      let reflectorYPosition := road.surfaceY - 17/400
      let numReflectors := (roadLength / reflectorSpacing).floor.toNat
      match approachDirection with
      | ApproachDir.west =>
        let segmentStartX := junctionCenter.x - junctionSize / 2 - roadLength
        (((List.range numReflectors).map (fun i =>
          (⟨segmentStartX + ((i : ℚ) + 1/2) * reflectorSpacing,
            reflectorYPosition, junctionCenter.z⟩ : Vec3)))).reverse
      | ApproachDir.east =>
        let segmentStartX := junctionCenter.x + junctionSize / 2
        (List.range numReflectors).map (fun i =>
          (⟨segmentStartX + ((i : ℚ) + 1/2) * reflectorSpacing,
            reflectorYPosition, junctionCenter.z⟩ : Vec3))
      | ApproachDir.south =>
        let segmentStartZ := junctionCenter.z - junctionSize / 2 - roadLength
        (((List.range numReflectors).map (fun i =>
          (⟨junctionCenter.x, reflectorYPosition,
            segmentStartZ + ((i : ℚ) + 1/2) * reflectorSpacing⟩ : Vec3)))).reverse
      | ApproachDir.north =>
        let segmentStartZ := junctionCenter.z + junctionSize / 2
        (List.range numReflectors).map (fun i =>
          (⟨junctionCenter.x, reflectorYPosition,
            segmentStartZ + ((i : ℚ) + 1/2) * reflectorSpacing⟩ : Vec3))

/-- C9: for every out-of-range junction index (negative or at least the
number of junctions), `getJunctionCenter` returns `null` and
`getReflectorPositions` returns an empty sequence, for every approach
direction; both lookups are total (never throw), and the caller treats
the results as "no data available". -/
theorem invalid_index_lookups_empty (road : Road) (i : ℤ) (dir : ApproachDir)
    (h : i < 0 ∨ (road.junctionCenters.length : ℤ) ≤ i) :
    getJunctionCenter road i = none ∧ getReflectorPositions road i dir = [] := by
  constructor
  · unfold getJunctionCenter
    rw [if_neg]
    omega
  · unfold getReflectorPositions
    rw [if_pos h]

/-- The three-junction road the shipped configuration builds (centers at
x = −82, 0, 82). -/
def defaultRoad : Road :=
  { junctionCenters :=
      [⟨-82, roadSurfaceY, 0⟩, ⟨0, roadSurfaceY, 0⟩, ⟨82, roadSurfaceY, 0⟩],
    surfaceY := roadSurfaceY }

/-- Witness for C9 at index 5 of the three-junction road. -/
theorem invalid_index_lookups_empty_witness :
    getJunctionCenter defaultRoad 5 = none ∧
    getReflectorPositions defaultRoad 5 ApproachDir.west = [] :=
  invalid_index_lookups_empty defaultRoad 5 ApproachDir.west (by decide)

end AmbulanceSim
